import Mathlib

/-!
Verification of the histocartography training-loop slice.

This file shallowly embeds the parts of the repository relevant to the
specified properties:
* `collate` and the batch data model from `experiments/histo-seg/train.py`;
* the loss setup, per-iteration loss combination and the epoch/validation
  schedule of `train_graph_classifier` in the same file;
* `download_file_to_local` from `histocartography/io/utils.py`.

Tensors are modelled by lists of rationals (scalars by `ℚ`), graphs by their
node counts (the only structure the embedded code inspects), and Python
exceptions by `Except String`.
-/

namespace HistoCartography

/-- A `dgl.DGLGraph`: the embedded code only ever reads its node count. -/
structure DGLGraph where
  numNodes : Nat
deriving Repr, DecidableEq

/-- The result of `dgl.batch`: a merged graph retaining the per-graph node
counts (`graph.batch_num_nodes`) in merge order. -/
structure BatchedGraph where
  batchNumNodes : List Nat
deriving Repr, DecidableEq

/-- Embedding of `dgl.batch`: merge graphs into one disjoint union, remembering each
original node count in order. -/
def dglBatch (graphs : List DGLGraph) : BatchedGraph :=
  { batchNumNodes := graphs.map (fun g => g.numNodes) }

/-- Embedding of `torch.stack` on a list of equal-length one-hot label vectors: the stacked
matrix, one row per input vector, in input order. -/
def torchStack (rows : List (List ℚ)) : List (List ℚ) :=
  rows

/-- Embedding of `torch.cat` on a list of label vectors: their concatenation in order. -/
def torchCat (chunks : List (List Int)) : List Int :=
  chunks.flatten

/-- A dataset sample: (graph, one-hot graph label vector, node label vector). -/
abbrev Sample := DGLGraph × List ℚ × List Int

/-- Embedding of `collate` from `train.py`: unpack the sample tuples (the three-way
unpacking of `zip(*samples)` fails with a `ValueError` on an empty list), then
batch the graphs, stack the graph labels and concatenate the node labels. -/
def collate (samples : List Sample) :
    Except String (BatchedGraph × List (List ℚ) × List Int) :=
  match samples with
  | [] => Except.error "not enough values to unpack"
  | _ :: _ =>
      Except.ok
        (dglBatch (samples.map (fun s => s.1)),
         torchStack (samples.map (fun s => s.2.1)),
         torchCat (samples.map (fun s => s.2.2)))

/-- Scalar loss values are rationals in the embedding. -/
abbrev Loss := ℚ

/-- Observable effects of one run of `train_graph_classifier`, restricted to
the events the specification talks about: backward passes (with the scalar
loss value passed to `backward`), optimizer steps, and the per-epoch metric
flushes.  A validation flush records whether the model was passed to the
metric logger for checkpointing. -/
inductive Event where
  | backward (lossValue : Loss)
  | optimizerStep
  | trainFlush (epoch : Nat)
  | validationFlush (epoch : Nat) (modelPassed : Bool)
deriving Repr, DecidableEq

/-- The loss-weight setup of `train_graph_classifier` (lines 130-139): only
when both heads are active is `node_loss_weight` read from the loss
configuration (key `node_weight`, default `0.5`), asserted to lie in `[0,1]`,
and complemented into `graph_loss_weight`.  The result is the optional pair
`(graph_loss_weight, node_loss_weight)`. -/
def lossWeightSetup (useGraphHead useNodeHead : Bool) (nodeWeight : Option ℚ) :
    Except String (Option (ℚ × ℚ)) :=
  if useGraphHead && useNodeHead then
    let w := nodeWeight.getD (1 / 2)
    if 0 ≤ w ∧ w ≤ 1 then Except.ok (some (1 - w, w))
    else Except.error "Node weight loss must be between 0 and 1"
  else Except.ok none

/-- The loss passed to `backward` in one training iteration (lines 178-192):
both heads active gives the weighted combination, a single active head gives
that head's loss, no active head gives no backward call at all. -/
def backwardLoss (useGraphHead useNodeHead : Bool) (weights : Option (ℚ × ℚ))
    (graphLoss nodeLoss : Loss) : Option Loss :=
  if useGraphHead && useNodeHead then
    weights.map (fun p => p.1 * graphLoss + p.2 * nodeLoss)
  else if useNodeHead then some nodeLoss
  else if useGraphHead then some graphLoss
  else none

/-- Events of one training iteration: the backward call (if any) followed by
the unconditional `optimizer.step()`.  The batch is abstracted to the pair of
scalar losses the external criteria return on it. -/
def trainIterationEvents (useGraphHead useNodeHead : Bool)
    (weights : Option (ℚ × ℚ)) (batch : Loss × Loss) : List Event :=
  (match backwardLoss useGraphHead useNodeHead weights batch.1 batch.2 with
   | some v => [Event.backward v]
   | none => []) ++ [Event.optimizerStep]

/-- Events of one epoch of the loop (lines 166-261): every training batch is
processed, the training metrics are flushed, and the validation path runs
exactly when `epoch % validation_frequency == 0`; its flush passes the model
to the metric logger unless `test` mode is on (line 254). -/
def epochEvents (useGraphHead useNodeHead : Bool) (weights : Option (ℚ × ℚ))
    (batches : List (Loss × Loss)) (validationFrequency : Nat) (test : Bool)
    (epoch : Nat) : List Event :=
  batches.flatMap (trainIterationEvents useGraphHead useNodeHead weights)
    ++ [Event.trainFlush epoch]
    ++ (if epoch % validationFrequency = 0 then
          [Event.validationFlush epoch (!test)]
        else [])

/-- Events of the whole epoch loop, epochs `0, 1, ..., nrEpochs - 1`. -/
def runEvents (useGraphHead useNodeHead : Bool) (weights : Option (ℚ × ℚ))
    (batches : List (Loss × Loss)) (validationFrequency : Nat) (test : Bool)
    (nrEpochs : Nat) : List Event :=
  (List.range nrEpochs).flatMap
    (epochEvents useGraphHead useNodeHead weights batches validationFrequency
      test)

/-- The configuration slice of `train_graph_classifier` that the embedded
behaviour depends on.  `graphClassifierConfig` / `nodeClassifierConfig` model
the same-named entries of `model_config` (`Option Unit`: only their presence
is inspected); `nodeWeight` models the optional `node_weight` key of the loss
configuration. -/
structure TrainConfig where
  graphClassifierConfig : Option Unit
  nodeClassifierConfig : Option Unit
  nodeWeight : Option ℚ
  nrEpochs : Nat
  validationFrequency : Nat
  test : Bool
deriving Repr, DecidableEq

/-- Source: `use_graph_head = model_config["graph_classifier_config"] is not None`. -/
def TrainConfig.useGraphHead (cfg : TrainConfig) : Bool :=
  cfg.graphClassifierConfig.isSome

/-- Source: `use_node_head = model_config["node_classifier_config"] is not None`. -/
def TrainConfig.useNodeHead (cfg : TrainConfig) : Bool :=
  cfg.nodeClassifierConfig.isSome

/-- Embedding of `train_graph_classifier`, abstracted to its observable event trace: the
loss-weight setup runs before the epoch loop (an assertion failure there stops
the run before any training iteration), then the epoch loop emits its events.
`batches` abstracts the training loader: the scalar losses the criteria
return on each batch of one epoch. -/
def trainGraphClassifier (cfg : TrainConfig) (batches : List (Loss × Loss)) :
    Except String (List Event) :=
  match lossWeightSetup cfg.useGraphHead cfg.useNodeHead cfg.nodeWeight with
  | Except.error e => Except.error e
  | Except.ok weights =>
      Except.ok (runEvents cfg.useGraphHead cfg.useNodeHead weights batches
        cfg.validationFrequency cfg.test cfg.nrEpochs)

/-- Embedding of `download_file_to_local` from `histocartography/io/utils.py`.  The
underlying S3 transfer is external; its outcome (success, or the exception it
raised) is the `downloadOutcome` argument.  The function catches any such
exception, logs it (second component), and returns `None`; on success it
returns the given local file name. -/
def download_file_to_local (downloadOutcome : Except String Unit)
    (s3file localName : String) : Option String × List String :=
  match downloadOutcome with
  | Except.ok _ => (some localName, [])
  | Except.error err =>
      (none,
       [s3file ++ " could not be downloaded to " ++ localName, err])

/-! ## Helper lemmas -/

/-- Every event emitted by a single training iteration is an optimizer step or
a backward pass: iterations never emit flush events. -/
theorem mem_trainIterationEvents (useG useN : Bool) (weights : Option (ℚ × ℚ))
    (batch : Loss × Loss) (ev : Event)
    (h : ev ∈ trainIterationEvents useG useN weights batch) :
    ev = Event.optimizerStep ∨ ∃ v, ev = Event.backward v := by
  unfold trainIterationEvents at h
  cases hb : backwardLoss useG useN weights batch.1 batch.2 with
  | none =>
      rw [hb] at h
      simp at h
      exact Or.inl h
  | some v =>
      rw [hb] at h
      simp at h
      rcases h with h | h
      · exact Or.inr ⟨v, h⟩
      · exact Or.inl h

/-- A validation flush occurs among the events of epoch `i` exactly when the
epoch index satisfies the modulus condition, for the flush of that epoch with
the model passed iff not in test mode. -/
theorem validationFlush_mem_epochEvents (useG useN : Bool)
    (weights : Option (ℚ × ℚ)) (batches : List (Loss × Loss))
    (f : Nat) (test : Bool) (i e : Nat) (b : Bool) :
    Event.validationFlush e b ∈ epochEvents useG useN weights batches f test i
      ↔ e = i ∧ b = !test ∧ i % f = 0 := by
  unfold epochEvents
  constructor
  · intro h
    rw [List.mem_append, List.mem_append] at h
    rcases h with (h | h) | h
    · exfalso
      rw [List.mem_flatMap] at h
      obtain ⟨a, _, ha⟩ := h
      rcases mem_trainIterationEvents useG useN weights a _ ha with h1 | ⟨v, h1⟩
      · exact Event.noConfusion h1
      · exact Event.noConfusion h1
    · rw [List.mem_singleton] at h
      exact Event.noConfusion h
    · by_cases hif : i % f = 0
      · rw [if_pos hif, List.mem_singleton] at h
        injection h with h1 h2
        exact ⟨h1, h2, hif⟩
      · rw [if_neg hif] at h
        exact absurd h (List.not_mem_nil _)
  · rintro ⟨rfl, rfl, hif⟩
    rw [List.mem_append]
    exact Or.inr (by rw [if_pos hif]
                     exact List.mem_singleton.mpr rfl)

/-- A validation flush for epoch `e` occurs in a run of `n` epochs exactly
when `e < n` and `e % f = 0`; its `modelPassed` flag is `!test`. -/
theorem validationFlush_mem_runEvents (useG useN : Bool)
    (weights : Option (ℚ × ℚ)) (batches : List (Loss × Loss))
    (f : Nat) (test : Bool) (n e : Nat) (b : Bool) :
    Event.validationFlush e b ∈ runEvents useG useN weights batches f test n
      ↔ e < n ∧ e % f = 0 ∧ b = !test := by
  unfold runEvents
  rw [List.mem_flatMap]
  constructor
  · rintro ⟨i, hi, hmem⟩
    rw [validationFlush_mem_epochEvents] at hmem
    obtain ⟨rfl, hb, hf0⟩ := hmem
    exact ⟨List.mem_range.mp hi, hf0, hb⟩
  · rintro ⟨he, hf0, hb⟩
    exact ⟨e, List.mem_range.mpr he,
      (validationFlush_mem_epochEvents useG useN weights batches f test e e
        b).mpr ⟨rfl, hb, hf0⟩⟩

/-! ## Claim theorems -/

/-- C2: for every non-empty list of samples whose graph-label vectors share
one length `C`, `collate` succeeds and returns the stacked graph-label matrix
with exactly `N` rows in input order (each of length `C`), and the node-label
vectors concatenated in input order, with total length the sum of the
per-sample node-label lengths — equivalently (for well-formed samples) the
sum of the merged graph's per-graph node counts. -/
theorem collate_keeps_order_and_counts (samples : List Sample) (C : Nat)
    (hne : samples ≠ [])
    (hC : ∀ s ∈ samples, s.2.1.length = C) :
    ∃ g m v, collate samples = Except.ok (g, m, v) ∧
      m.length = samples.length ∧
      m = samples.map (fun s => s.2.1) ∧
      (∀ r ∈ m, r.length = C) ∧
      v = (samples.map (fun s => s.2.2)).flatten ∧
      v.length = (samples.map (fun s => s.2.2.length)).sum ∧
      ((∀ s ∈ samples, s.2.2.length = s.1.numNodes) →
        v.length = g.batchNumNodes.sum) := by
  obtain ⟨s, rest, rfl⟩ : ∃ s rest, samples = s :: rest := by
    cases samples with
    | nil => exact absurd rfl hne
    | cons a l => exact ⟨a, l, rfl⟩
  refine ⟨_, _, _, rfl, ?_, rfl, ?_, rfl, ?_, ?_⟩
  · simp [torchStack]
  · intro r hr
    simp only [torchStack, List.mem_map] at hr
    obtain ⟨a, ha, rfl⟩ := hr
    exact hC a ha
  · simp [torchCat, List.length_flatten, List.map_map, Function.comp_def]
  · intro hwf
    have hmaps : (s :: rest).map (fun x => x.2.2.length)
        = (s :: rest).map (fun x => x.1.numNodes) :=
      List.map_congr_left hwf
    simp only [torchCat, dglBatch, List.length_flatten, List.map_map,
      Function.comp_def]
    rw [hmaps]

/-- Witness for C2 at a concrete two-sample batch. -/
theorem collate_keeps_order_and_counts_witness :
    ∃ g m v,
      collate ([(⟨2⟩, [1, 0], [0, 1]),
          (⟨1⟩, [0, 1], [7])] : List Sample)
        = Except.ok (g, m, v) ∧
      m.length = ([(⟨2⟩, [1, 0], [0, 1]),
        (⟨1⟩, [0, 1], [7])] : List Sample).length ∧
      m = ([(⟨2⟩, [1, 0], [0, 1]),
        (⟨1⟩, [0, 1], [7])] : List Sample).map (fun s => s.2.1) ∧
      (∀ r ∈ m, r.length = 2) ∧
      v = (([(⟨2⟩, [1, 0], [0, 1]),
        (⟨1⟩, [0, 1], [7])] : List Sample).map (fun s => s.2.2)).flatten ∧
      v.length = (([(⟨2⟩, [1, 0], [0, 1]),
        (⟨1⟩, [0, 1], [7])] : List Sample).map
          (fun s => s.2.2.length)).sum ∧
      ((∀ s ∈ ([(⟨2⟩, [1, 0], [0, 1]),
          (⟨1⟩, [0, 1], [7])] : List Sample), s.2.2.length = s.1.numNodes) →
        v.length = g.batchNumNodes.sum) :=
  collate_keeps_order_and_counts
    ([(⟨2⟩, [1, 0], [0, 1]), (⟨1⟩, [0, 1], [7])] : List Sample) 2
    (by decide) (by decide)

/-- C10: `collate` on the empty sample list fails (the three-way unpacking of
the transposed empty sequence raises) and returns no batch. -/
theorem collate_empty_fails :
    collate ([] : List Sample) = Except.error "not enough values to unpack" :=
  rfl

/-- C1: under a successful loss-weight setup, when both heads are active the
loss passed to `backward` is `graph_loss_weight * graph_loss +
node_loss_weight * node_loss` with `graph_loss_weight = 1 - node_loss_weight`;
when exactly one head is active it is that single head's loss. -/
theorem backward_loss_combination (useG useN : Bool) (nw : Option ℚ)
    (weights : Option (ℚ × ℚ)) (g n : Loss)
    (hsetup : lossWeightSetup useG useN nw = Except.ok weights) :
    (useG = true → useN = true →
      ∃ w, weights = some (1 - w, w) ∧
        backwardLoss useG useN weights g n = some ((1 - w) * g + w * n)) ∧
    (useG = true → useN = false →
      backwardLoss useG useN weights g n = some g) ∧
    (useG = false → useN = true →
      backwardLoss useG useN weights g n = some n) := by
  refine ⟨?_, ?_, ?_⟩
  · rintro rfl rfl
    unfold lossWeightSetup at hsetup
    simp only [Bool.and_self, if_true] at hsetup
    by_cases h : 0 ≤ nw.getD (1 / 2) ∧ nw.getD (1 / 2) ≤ 1
    · rw [if_pos h] at hsetup
      injection hsetup with hsetup
      exact ⟨nw.getD (1 / 2), hsetup.symm, by
        rw [← hsetup]; simp [backwardLoss]⟩
    · rw [if_neg h] at hsetup
      exact absurd hsetup (by simp)
  · rintro rfl rfl
    simp [backwardLoss]
  · rintro rfl rfl
    simp [backwardLoss]

/-- Witness for C1 in the both-heads case, with configured node weight
`1/4`: the backward loss is `(3/4)·g + (1/4)·n` at `g = 2`, `n = 4`. -/
theorem backward_loss_combination_witness :
    ∃ w, (some ((3 : ℚ) / 4, (1 : ℚ) / 4) : Option (ℚ × ℚ))
        = some (1 - w, w) ∧
      backwardLoss true true (some ((3 : ℚ) / 4, (1 : ℚ) / 4)) 2 4
        = some ((1 - w) * 2 + w * 4) :=
  (backward_loss_combination true true (some (1 / 4))
    (some ((3 : ℚ) / 4, (1 : ℚ) / 4)) 2 4 (by norm_num [lossWeightSetup])).1
    rfl rfl

/-- C3 (observed code behaviour at the failing configuration): with neither
classifier head configured, `train_graph_classifier` raises no configuration
error; it runs the training iteration, performs no backward pass, still calls
`optimizer.step()`, and even reaches the validation flush. -/
theorem no_head_config_trains_without_error :
    trainGraphClassifier
      { graphClassifierConfig := none, nodeClassifierConfig := none,
        nodeWeight := none, nrEpochs := 1, validationFrequency := 1,
        test := false } [(0, 0)] =
      Except.ok [Event.optimizerStep, Event.trainFlush 0,
        Event.validationFlush 0 true] := by
  rfl

/-- C4: when both heads are active, a configured `node_weight` outside `[0,1]`
makes `train_graph_classifier` fail with the assertion message before any
training iteration (no event is emitted); conversely, whenever the run
proceeds to its iterations with both heads active, the node loss weight
(configured or defaulted) lies in `[0,1]`. -/
theorem node_weight_range_checked :
    (∀ (cfg : TrainConfig) (batches : List (Loss × Loss)) (w : ℚ),
      cfg.useGraphHead = true → cfg.useNodeHead = true →
      cfg.nodeWeight = some w → ¬(0 ≤ w ∧ w ≤ 1) →
      trainGraphClassifier cfg batches =
        Except.error "Node weight loss must be between 0 and 1") ∧
    (∀ (cfg : TrainConfig) (batches : List (Loss × Loss))
      (evts : List Event),
      trainGraphClassifier cfg batches = Except.ok evts →
      cfg.useGraphHead = true → cfg.useNodeHead = true →
      0 ≤ cfg.nodeWeight.getD (1 / 2) ∧ cfg.nodeWeight.getD (1 / 2) ≤ 1) := by
  constructor
  · intro cfg batches w hg hn hw hrange
    unfold trainGraphClassifier lossWeightSetup
    rw [hg, hn, hw]
    simp only [Bool.and_self, if_true, Option.getD_some]
    rw [if_neg hrange]
  · intro cfg batches evts hok hg hn
    unfold trainGraphClassifier lossWeightSetup at hok
    rw [hg, hn] at hok
    simp only [Bool.and_self, if_true] at hok
    by_cases h : 0 ≤ cfg.nodeWeight.getD (1 / 2) ∧
        cfg.nodeWeight.getD (1 / 2) ≤ 1
    · exact h
    · rw [if_neg h] at hok
      exact absurd hok (by simp)

/-- Witness for C4: `node_weight = 2` with both heads active fails fast. -/
theorem node_weight_range_checked_witness :
    trainGraphClassifier
      { graphClassifierConfig := some (), nodeClassifierConfig := some (),
        nodeWeight := some 2, nrEpochs := 1, validationFrequency := 1,
        test := false } [] =
      Except.error "Node weight loss must be between 0 and 1" :=
  node_weight_range_checked.1
    { graphClassifierConfig := some (), nodeClassifierConfig := some (),
      nodeWeight := some 2, nrEpochs := 1, validationFrequency := 1,
      test := false } [] 2 rfl rfl rfl (by decide)

/-- C5: within a run, the validation path of epoch `e` executes exactly when
`e % validation_frequency = 0` (stated for `validation_frequency ≥ 1`, as a
zero frequency raises in the source language). -/
theorem validation_runs_iff_epoch_divisible (useG useN : Bool)
    (weights : Option (ℚ × ℚ)) (batches : List (Loss × Loss))
    (f : Nat) (test : Bool) (nrEpochs e : Nat)
    (_hf : 1 ≤ f) (he : e < nrEpochs) :
    (∃ b, Event.validationFlush e b ∈
        runEvents useG useN weights batches f test nrEpochs) ↔
      e % f = 0 := by
  constructor
  · rintro ⟨b, hb⟩
    exact ((validationFlush_mem_runEvents useG useN weights batches f test
      nrEpochs e b).mp hb).2.1
  · intro h
    exact ⟨!test, (validationFlush_mem_runEvents useG useN weights batches f
      test nrEpochs e (!test)).mpr ⟨he, h, rfl⟩⟩

/-- Witness for C5: with `validation_frequency = 2` and three epochs, epoch 2
validates exactly because `2 % 2 = 0`. -/
theorem validation_runs_iff_epoch_divisible_witness :
    (∃ b, Event.validationFlush 2 b ∈
        runEvents true false none [] 2 false 3) ↔ 2 % 2 = 0 :=
  validation_runs_iff_epoch_divisible true false none [] 2 false 3 2
    (by decide) (by decide)

/-- C6: in `--test` dry-run mode every validation flush carries no model
(checkpointing suppressed) while the flush itself still happens at every due
validation epoch; without the flag the model is passed. -/
theorem test_mode_suppresses_checkpoint (useG useN : Bool)
    (weights : Option (ℚ × ℚ)) (batches : List (Loss × Loss))
    (f nrEpochs e : Nat) (b : Bool) (_hf : 1 ≤ f) :
    (Event.validationFlush e b ∈
        runEvents useG useN weights batches f true nrEpochs → b = false) ∧
    (e < nrEpochs → e % f = 0 →
      Event.validationFlush e false ∈
        runEvents useG useN weights batches f true nrEpochs) ∧
    (Event.validationFlush e b ∈
        runEvents useG useN weights batches f false nrEpochs → b = true) := by
  refine ⟨?_, ?_, ?_⟩
  · intro h
    exact ((validationFlush_mem_runEvents useG useN weights batches f true
      nrEpochs e b).mp h).2.2
  · intro he h0
    exact (validationFlush_mem_runEvents useG useN weights batches f true
      nrEpochs e false).mpr ⟨he, h0, rfl⟩
  · intro h
    exact ((validationFlush_mem_runEvents useG useN weights batches f false
      nrEpochs e b).mp h).2.2

/-- Witness for C6: a one-epoch dry run still flushes validation metrics with
no model passed. -/
theorem test_mode_suppresses_checkpoint_witness :
    Event.validationFlush 0 false ∈ runEvents true false none [] 1 true 1 :=
  (test_mode_suppresses_checkpoint true false none [] 1 1 0 false
    (by decide)).2.1 (by decide) (by decide)

/-- C7: `download_file_to_local` never propagates a failure of the underlying
S3 download: on failure it logs the error and returns the sentinel `None`; on
success it returns the local file name it was given. -/
theorem download_failure_returns_sentinel (outcome : Except String Unit)
    (s3file localName : String) :
    (∀ err, outcome = Except.error err →
      (download_file_to_local outcome s3file localName).1 = none ∧
      err ∈ (download_file_to_local outcome s3file localName).2) ∧
    (outcome = Except.ok () →
      download_file_to_local outcome s3file localName =
        (some localName, [])) := by
  constructor
  · rintro err rfl
    simp [download_file_to_local]
  · rintro rfl
    rfl

/-- Witness for C7 on a concrete failed download. -/
theorem download_failure_returns_sentinel_witness :
    (download_file_to_local (Except.error "connection refused")
      "test_wsi.svs" "tmp.svs").1 = none ∧
    "connection refused" ∈ (download_file_to_local
      (Except.error "connection refused") "test_wsi.svs" "tmp.svs").2 :=
  (download_failure_returns_sentinel (Except.error "connection refused")
    "test_wsi.svs" "tmp.svs").1 "connection refused" rfl

/-- C8: with both heads active and no `node_weight` key in the loss
configuration, the node loss weight defaults to `1/2`, so the combined loss
weights graph and node losses equally. -/
theorem default_node_weight_half :
    lossWeightSetup true true none = Except.ok (some (1 / 2, 1 / 2)) ∧
    ∀ g n : Loss, backwardLoss true true (some (1 / 2, 1 / 2)) g n =
      some ((1 / 2) * g + (1 / 2) * n) := by
  constructor
  · norm_num [lossWeightSetup]
  · intro g n
    simp [backwardLoss]

/-- C9: with at most one head active, the configured `node_weight` is never
read or range-checked and has no effect: replacing it by any other value
leaves the whole run's outcome unchanged, and the run never fails on it. -/
theorem node_weight_no_influence_single_head (cfg : TrainConfig)
    (batches : List (Loss × Loss)) (w : Option ℚ)
    (h : ¬(cfg.useGraphHead = true ∧ cfg.useNodeHead = true)) :
    trainGraphClassifier { cfg with nodeWeight := w } batches =
      trainGraphClassifier cfg batches ∧
    ∃ evts, trainGraphClassifier cfg batches = Except.ok evts := by
  have hand : (cfg.useGraphHead && cfg.useNodeHead) = false := by
    cases hg : cfg.useGraphHead <;> cases hn : cfg.useNodeHead <;>
      simp_all
  have hand2 : (({ cfg with nodeWeight := w } : TrainConfig).useGraphHead &&
      ({ cfg with nodeWeight := w } : TrainConfig).useNodeHead) = false :=
    hand
  constructor
  · unfold trainGraphClassifier lossWeightSetup
    rw [hand2, hand]
    rfl
  · unfold trainGraphClassifier lossWeightSetup
    rw [hand]
    exact ⟨_, rfl⟩

/-- Witness for C9: a graph-head-only configuration with `node_weight = 5`
(out of range) behaves exactly like the same configuration without the key,
and completes without error. -/
theorem node_weight_no_influence_single_head_witness :
    trainGraphClassifier
      { graphClassifierConfig := some (), nodeClassifierConfig := none,
        nodeWeight := some 5, nrEpochs := 1, validationFrequency := 1,
        test := false } [(1, 2)] =
      trainGraphClassifier
        { graphClassifierConfig := some (), nodeClassifierConfig := none,
          nodeWeight := none, nrEpochs := 1, validationFrequency := 1,
          test := false } [(1, 2)] ∧
    ∃ evts, trainGraphClassifier
        { graphClassifierConfig := some (), nodeClassifierConfig := none,
          nodeWeight := none, nrEpochs := 1, validationFrequency := 1,
          test := false } [(1, 2)] = Except.ok evts :=
  node_weight_no_influence_single_head
    { graphClassifierConfig := some (), nodeClassifierConfig := none,
      nodeWeight := none, nrEpochs := 1, validationFrequency := 1,
      test := false } [(1, 2)] (some 5) (by decide)

end HistoCartography
